import Mathlib

/-!
Verification of the reward-pallet core: a reward pool ledger with a
per-block distribution hook (on_initialize_hook), a privileged top-up
extrinsic (top_up_pool) and a signed claim extrinsic (claim_reward).
The definitions below are a shallow embedding of src/src/lib.rs.
-/

namespace RewardPallet

/-- Account identifiers; their structure is irrelevant to the ledger. -/
abbrev AccountId := Nat

/-- Largest representable balance. The pallet's BalanceOf type is an
unsigned amount; in the runtime it is u128, so the representable range
is 0 .. 2^128 - 1. Balances are embedded as Nat, with this bound made
explicit wherever the source code computes: checked arithmetic fails
past the bound, unchecked additions wrap past it. -/
def BALANCE_MAX : Nat := 2 ^ 128 - 1

/-- Modulus of the u128 balance representation. -/
def U128_MOD : Nat := 2 ^ 128

/-- The checked_add of the balance type: some (a + b) unless the sum
leaves the representable range. -/
def checked_add (a b : Nat) : Option Nat :=
  if a + b ≤ BALANCE_MAX then some (a + b) else none

/-- Raw (unchecked) u128 addition as compiled in a default release
build: it wraps on overflow. The source updates TotalDistributed with
this plain addition in both payout paths. -/
def wrapping_add (a b : Nat) : Nat :=
  (a + b) % U128_MOD

/-- Ledger State: the two storage items RewardPool and TotalDistributed. -/
structure LedgerState where
  rewardPool : Nat
  totalDistributed : Nat
deriving Repr, DecidableEq

/-- Genesis build: RewardPool := initial_reward_pool, TotalDistributed := 0. -/
def genesisBuild (initial_reward_pool : Nat) : LedgerState :=
  { rewardPool := initial_reward_pool, totalDistributed := 0 }

/-- The pallet's events. -/
inductive Event where
  | RewardPoolIncreased (amount new_pool : Nat)
  | RewardClaimed (who : AccountId) (amount : Nat)
  | BlockRewardDistributed (author : AccountId) (amount : Nat)
deriving Repr, DecidableEq

/-- Dispatch errors observable from the two extrinsics. The first three
are the pallet's own Error enum; ArithmeticOverflow is the
sp_runtime ArithmeticError::Overflow raised by top_up_pool's
checked_add; BadOrigin is the error of ensure_signed. -/
inductive DispatchError where
  | InsufficientRewardPool
  | InvalidClaimAmount
  | BadOriginForTopUp
  | ArithmeticOverflow
  | BadOrigin
deriving Repr, DecidableEq

/-- Call origins, as far as this pallet can distinguish them. -/
inductive Origin where
  | Signed (who : AccountId)
  | Root
  | Unsigned
deriving Repr, DecidableEq

/-- ensure_signed: succeeds with the account exactly on signed origins. -/
def ensure_signed : Origin → Except DispatchError AccountId
  | Origin.Signed who => Except.ok who
  | _ => Except.error DispatchError.BadOrigin

/-- Result of one extrinsic call: the ledger state after the call, the
events deposited, the Currency::deposit_creating transfers performed
(recipient and amount), and the dispatch result. -/
structure CallResult where
  state : LedgerState
  events : List Event
  transfers : List (AccountId × Nat)
  result : Except DispatchError Unit

/-- Result of the on_initialize_hook hook: new state, deposited events,
transfers, and the weight reported to the host. The hook has no error
channel: its return type is Weight only. -/
structure HookResult where
  state : LedgerState
  events : List Event
  transfers : List (AccountId × Nat)
  weight : Nat

/-- top_up_pool. The RewardManagerOrigin::try_origin outcome is supplied
by the external origin verifier; this handler only reacts to its
yes/no outcome, embedded as the boolean authorized. -/
def top_up_pool (authorized : Bool) (s : LedgerState) (amount : Nat) :
    CallResult :=
  if authorized = false then
    { state := s, events := [], transfers := [],
      result := Except.error DispatchError.BadOriginForTopUp }
  else
    match checked_add s.rewardPool amount with
    | none =>
        { state := s, events := [], transfers := [],
          result := Except.error DispatchError.ArithmeticOverflow }
    | some new_pool =>
        { state := { s with rewardPool := new_pool },
          events := [Event.RewardPoolIncreased amount new_pool],
          transfers := [],
          result := Except.ok () }

/-- claim_reward: ensure_signed, reject zero amount, reject when the pool
is short, otherwise deduct the amount from the pool, add it to
total_distributed with the source's raw (wrapping) addition, credit the
claimant and emit RewardClaimed. -/
def claim_reward (s : LedgerState) (origin : Origin) (amount : Nat) :
    CallResult :=
  match ensure_signed origin with
  | Except.error e =>
      { state := s, events := [], transfers := [], result := Except.error e }
  | Except.ok claimant =>
      if amount = 0 then
        { state := s, events := [], transfers := [],
          result := Except.error DispatchError.InvalidClaimAmount }
      else if s.rewardPool < amount then
        { state := s, events := [], transfers := [],
          result := Except.error DispatchError.InsufficientRewardPool }
      else
        { state := { rewardPool := s.rewardPool - amount,
                     totalDistributed := wrapping_add s.totalDistributed amount },
          events := [Event.RewardClaimed claimant amount],
          transfers := [(claimant, amount)],
          result := Except.ok () }

/-- The on_initialize hook: skip (weight 0) when the configured per-block
reward is zero or the pool is short; otherwise, when the host supplies a
block author, distribute the per-block reward to the author, updating
total_distributed with the source's raw (wrapping) addition; the weight
returned after the first two checks is the constant 10000 whether or
not an author was found. -/
def on_initialize_hook (reward_per_block : Nat) (block_author : Option AccountId)
    (s : LedgerState) : HookResult :=
  if reward_per_block = 0 then
    { state := s, events := [], transfers := [], weight := 0 }
  else if s.rewardPool < reward_per_block then
    { state := s, events := [], transfers := [], weight := 0 }
  else
    match block_author with
    | some author =>
        { state := { rewardPool := s.rewardPool - reward_per_block,
                     totalDistributed := wrapping_add s.totalDistributed reward_per_block },
          events := [Event.BlockRewardDistributed author reward_per_block],
          transfers := [(author, reward_per_block)],
          weight := 10000 }
    | none =>
        { state := s, events := [], transfers := [], weight := 10000 }

/-- One operation applied to the ledger: the block hook, a top-up or a
claim. Authorization and block-author resolution are external inputs
carried by the operation. -/
inductive Op where
  | onBlockProduced (reward_per_block : Nat) (block_author : Option AccountId)
  | topUp (authorized : Bool) (amount : Nat)
  | claim (origin : Origin) (amount : Nat)

/-- Amount actually paid out by a list of credit transfers. -/
def payoutOf (transfers : List (AccountId × Nat)) : Nat :=
  (transfers.map Prod.snd).sum

/-- One step of the ledger state machine: the state after the operation
and the amount the operation actually paid out. -/
def step (s : LedgerState) : Op → LedgerState × Nat
  | Op.onBlockProduced rpb author =>
      let r := on_initialize_hook rpb author s
      (r.state, payoutOf r.transfers)
  | Op.topUp authorized amount =>
      let r := top_up_pool authorized s amount
      (r.state, payoutOf r.transfers)
  | Op.claim origin amount =>
      let r := claim_reward s origin amount
      (r.state, payoutOf r.transfers)

/-- Run a sequence of operations from a state. -/
def runOps (s : LedgerState) : List Op → LedgerState
  | [] => s
  | op :: ops => runOps (step s op).1 ops

/-- Total amount paid out along a run. -/
def sumPayouts (s : LedgerState) : List Op → Nat
  | [] => 0
  | op :: ops => (step s op).2 + sumPayouts (step s op).1 ops

/- ------------------------------------------------------------------ -/
/- Helper lemmas shared by the claim theorems.                         -/
/- ------------------------------------------------------------------ -/

theorem BALANCE_MAX_add_one : BALANCE_MAX + 1 = U128_MOD := by
  decide

theorem step_totalDistributed (s : LedgerState) (op : Op)
    (h : s.totalDistributed ≤ BALANCE_MAX) :
    (step s op).1.totalDistributed
      = (s.totalDistributed + (step s op).2) % U128_MOD := by
  have hb := BALANCE_MAX_add_one
  have hlt : s.totalDistributed < U128_MOD := by omega
  cases op with
  | onBlockProduced rpb author =>
      simp only [step, on_initialize_hook]
      split
      · simp [payoutOf, Nat.mod_eq_of_lt hlt]
      · split
        · simp [payoutOf, Nat.mod_eq_of_lt hlt]
        · cases author <;> simp [payoutOf, wrapping_add, Nat.mod_eq_of_lt hlt]
  | topUp authorized amount =>
      simp only [step, top_up_pool]
      split
      · simp [payoutOf, Nat.mod_eq_of_lt hlt]
      · cases hc : checked_add s.rewardPool amount <;>
          simp [payoutOf, Nat.mod_eq_of_lt hlt]
  | claim origin amount =>
      simp only [step, claim_reward]
      cases origin <;> simp only [ensure_signed]
      · split
        · simp [payoutOf, Nat.mod_eq_of_lt hlt]
        · split
          · simp [payoutOf, Nat.mod_eq_of_lt hlt]
          · simp [payoutOf, wrapping_add]
      · simp [payoutOf, Nat.mod_eq_of_lt hlt]
      · simp [payoutOf, Nat.mod_eq_of_lt hlt]

theorem step_total_le (s : LedgerState) (op : Op)
    (h : s.totalDistributed ≤ BALANCE_MAX) :
    (step s op).1.totalDistributed ≤ BALANCE_MAX := by
  have hb := BALANCE_MAX_add_one
  rw [step_totalDistributed s op h]
  have hm := Nat.mod_lt (s.totalDistributed + (step s op).2)
    (show 0 < U128_MOD by omega)
  omega

theorem step_pool_payout (s : LedgerState) (op : Op)
    (h : 0 < (step s op).2) :
    s.rewardPool = (step s op).1.rewardPool + (step s op).2 := by
  cases op with
  | onBlockProduced rpb author =>
      revert h
      simp only [step, on_initialize_hook]
      split
      · simp [payoutOf]
      · rename_i hz
        split
        · simp [payoutOf]
        · rename_i hpool
          cases author with
          | none => simp [payoutOf]
          | some a =>
              intro _
              simp [payoutOf]
              omega
  | topUp authorized amount =>
      revert h
      simp only [step, top_up_pool]
      split
      · simp [payoutOf]
      · cases hc : checked_add s.rewardPool amount <;> simp [payoutOf]
  | claim origin amount =>
      revert h
      simp only [step, claim_reward]
      cases origin <;> simp only [ensure_signed]
      · split
        · simp [payoutOf]
        · split
          · simp [payoutOf]
          · rename_i hz hpool
            intro _
            simp [payoutOf]
            omega
      · simp [payoutOf]
      · simp [payoutOf]

theorem runOps_totalDistributed (ops : List Op) (s : LedgerState)
    (h : s.totalDistributed ≤ BALANCE_MAX) :
    (runOps s ops).totalDistributed
      = (s.totalDistributed + sumPayouts s ops) % U128_MOD := by
  induction ops generalizing s with
  | nil =>
      have hb := BALANCE_MAX_add_one
      simp [runOps, sumPayouts, Nat.mod_eq_of_lt (show s.totalDistributed < U128_MOD by omega)]
  | cons op ops ih =>
      simp only [runOps, sumPayouts]
      rw [ih _ (step_total_le s op h), step_totalDistributed s op h,
        Nat.mod_add_mod, Nat.add_assoc]

/- ------------------------------------------------------------------ -/
/- Claim theorems.                                                     -/
/- ------------------------------------------------------------------ -/

/-- C1 counterexample: total_distributed is not non-decreasing over all
reachable states. From a genesis pool of 2^128 - 1, claiming the whole
pool, topping up 40 and claiming 40 wraps the cumulative counter: the
final claim makes total_distributed strictly smaller (39 instead of
2^128 - 1 + 40). -/
theorem C1_monotonicity_counterexample :
    (step (runOps (genesisBuild (2 ^ 128 - 1))
        [Op.claim (Origin.Signed 1) (2 ^ 128 - 1), Op.topUp true 40])
      (Op.claim (Origin.Signed 1) 40)).1.totalDistributed
    < (runOps (genesisBuild (2 ^ 128 - 1))
        [Op.claim (Origin.Signed 1) (2 ^ 128 - 1), Op.topUp true 40]).totalDistributed := by
  decide

/-- C1 amended: every ledger state reachable from genesis has
reward_pool >= 0 and total_distributed >= 0, and an operation never
decreases total_distributed as long as adding its payout does not
overflow the u128 counter (total_distributed + payout <= 2^128 - 1);
past that bound the raw addition wraps and the counter can decrease. -/
theorem C1_invariant_amended (init : Nat) (ops : List Op) (op : Op) :
    0 ≤ (runOps (genesisBuild init) ops).rewardPool ∧
    0 ≤ (runOps (genesisBuild init) ops).totalDistributed ∧
    ((runOps (genesisBuild init) ops).totalDistributed
        + (step (runOps (genesisBuild init) ops) op).2 ≤ BALANCE_MAX →
      (runOps (genesisBuild init) ops).totalDistributed ≤
        (step (runOps (genesisBuild init) ops) op).1.totalDistributed) := by
  refine ⟨Nat.zero_le _, Nat.zero_le _, ?_⟩
  intro hbound
  have hb := BALANCE_MAX_add_one
  rw [step_totalDistributed _ _ (Nat.le_trans (Nat.le_add_right _ _) hbound),
    Nat.mod_eq_of_lt (by omega)]
  exact Nat.le_add_right _ _

/-- Witness for C1 amended: a claim of 40 applied at genesis pool 100
does not decrease total_distributed. -/
theorem C1_invariant_amended_witness :
    (runOps (genesisBuild 100) []).totalDistributed ≤
      (step (runOps (genesisBuild 100) [])
        (Op.claim (Origin.Signed 1) 40)).1.totalDistributed :=
  (C1_invariant_amended 100 [] (Op.claim (Origin.Signed 1) 40)).2.2 (by decide)

/-- C2 counterexample: total_distributed does not equal the sum of all
amounts actually paid out on every trace. On the wrap trace from a
genesis pool of 2^128 - 1 the payout sum is 2^128 + 39 while the stored
counter is 39. -/
theorem C2_conservation_counterexample :
    (runOps (genesisBuild (2 ^ 128 - 1))
        [Op.claim (Origin.Signed 1) (2 ^ 128 - 1), Op.topUp true 40,
         Op.claim (Origin.Signed 1) 40]).totalDistributed
      ≠ sumPayouts (genesisBuild (2 ^ 128 - 1))
          [Op.claim (Origin.Signed 1) (2 ^ 128 - 1), Op.topUp true 40,
           Op.claim (Origin.Signed 1) 40] := by
  decide

/-- C2 amended: after any sequence of operations from genesis,
total_distributed equals the sum of all amounts actually paid out
reduced modulo 2^128 (transfers of successful claims and distributed
block rewards; skips, failures and top-ups transfer nothing); each step
with an in-range counter updates total_distributed to the wrapped sum
of counter and payout, and whenever a step pays out, the pool decreases
by exactly the payout. -/
theorem C2_conservation_amended (init : Nat) (ops : List Op) :
    (runOps (genesisBuild init) ops).totalDistributed
      = sumPayouts (genesisBuild init) ops % U128_MOD ∧
    (∀ s op, s.totalDistributed ≤ BALANCE_MAX →
      (step s op).1.totalDistributed
        = (s.totalDistributed + (step s op).2) % U128_MOD) ∧
    (∀ s op, 0 < (step s op).2 →
      s.rewardPool = (step s op).1.rewardPool + (step s op).2) := by
  refine ⟨?_, step_totalDistributed, step_pool_payout⟩
  rw [runOps_totalDistributed _ _ (Nat.zero_le _)]
  simp [genesisBuild]

/-- Witness for C2 amended at a concrete trace: one successful claim of
40 from a genesis pool of 100. -/
theorem C2_conservation_amended_witness :
    (runOps (genesisBuild 100) [Op.claim (Origin.Signed 1) 40]).totalDistributed
      = sumPayouts (genesisBuild 100) [Op.claim (Origin.Signed 1) 40] % U128_MOD ∧
    (genesisBuild 100).rewardPool =
      (step (genesisBuild 100) (Op.claim (Origin.Signed 1) 40)).1.rewardPool
        + (step (genesisBuild 100) (Op.claim (Origin.Signed 1) 40)).2 :=
  ⟨(C2_conservation_amended 100 [Op.claim (Origin.Signed 1) 40]).1,
   (C2_conservation_amended 100 []).2.2 (genesisBuild 100)
     (Op.claim (Origin.Signed 1) 40) (by decide)⟩

/-- C3 counterexample: a successful claim does not always increment
total_distributed by exactly the amount. At the representable state
with pool 100 and total_distributed 2^128 - 1, claiming 40 succeeds but
the raw addition wraps: the stored counter becomes 39, not
2^128 - 1 + 40. -/
theorem C3_claim_success_counterexample :
    (claim_reward ⟨100, 2 ^ 128 - 1⟩ (Origin.Signed 1) 40).result
      = Except.ok () ∧
    (claim_reward ⟨100, 2 ^ 128 - 1⟩ (Origin.Signed 1) 40).state.totalDistributed
      ≠ 2 ^ 128 - 1 + 40 := by
  refine ⟨rfl, ?_⟩
  decide

/-- C3 amended: a signed claim of a positive amount not exceeding the
pool succeeds, decrements reward_pool by the amount, sets
total_distributed to the wrapped u128 sum of the old counter and the
amount (exactly old + amount whenever that sum is representable),
credits the claimant via the credit-transfer primitive and emits
RewardClaimed. -/
theorem C3_claim_success_amended (s : LedgerState) (who : AccountId)
    (amount : Nat) (hpos : 0 < amount) (hle : amount ≤ s.rewardPool) :
    (claim_reward s (Origin.Signed who) amount).result = Except.ok () ∧
    (claim_reward s (Origin.Signed who) amount).state.rewardPool
      = s.rewardPool - amount ∧
    (claim_reward s (Origin.Signed who) amount).state.totalDistributed
      = (s.totalDistributed + amount) % U128_MOD ∧
    (claim_reward s (Origin.Signed who) amount).transfers = [(who, amount)] ∧
    (claim_reward s (Origin.Signed who) amount).events
      = [Event.RewardClaimed who amount] := by
  have h0 : ¬ amount = 0 := by omega
  have h1 : ¬ s.rewardPool < amount := by omega
  simp [claim_reward, ensure_signed, wrapping_add, h0, h1]

/-- Witness for C3 amended: with reward_pool = 100, claim of 40 yields
pool 60 and total_distributed 40. -/
theorem C3_claim_success_amended_witness :
    (claim_reward ⟨100, 0⟩ (Origin.Signed 7) 40).result = Except.ok () ∧
    (claim_reward ⟨100, 0⟩ (Origin.Signed 7) 40).state.rewardPool = 60 ∧
    (claim_reward ⟨100, 0⟩ (Origin.Signed 7) 40).state.totalDistributed
      = (0 + 40) % U128_MOD ∧
    (claim_reward ⟨100, 0⟩ (Origin.Signed 7) 40).transfers = [(7, 40)] ∧
    (claim_reward ⟨100, 0⟩ (Origin.Signed 7) 40).events
      = [Event.RewardClaimed 7 40] :=
  C3_claim_success_amended ⟨100, 0⟩ 7 40 (by decide) (by decide)

/-- C4: for a signed caller, claim fails with InvalidClaimAmount exactly
when the amount is zero, fails with InsufficientRewardPool exactly when
the amount is positive but exceeds the pool, and every failure leaves
the ledger unchanged with no credit transfer. -/
theorem C4_claim_errors (s : LedgerState) (who : AccountId) (amount : Nat) :
    ((claim_reward s (Origin.Signed who) amount).result
        = Except.error DispatchError.InvalidClaimAmount ↔ amount = 0) ∧
    ((claim_reward s (Origin.Signed who) amount).result
        = Except.error DispatchError.InsufficientRewardPool ↔
          0 < amount ∧ s.rewardPool < amount) ∧
    (∀ e, (claim_reward s (Origin.Signed who) amount).result = Except.error e →
      (claim_reward s (Origin.Signed who) amount).state = s ∧
      (claim_reward s (Origin.Signed who) amount).transfers = []) := by
  by_cases h0 : amount = 0
  · simp [claim_reward, ensure_signed, h0]
  · by_cases h1 : s.rewardPool < amount
    · simp [claim_reward, ensure_signed, h0, h1]
      omega
    · simp [claim_reward, ensure_signed, h0, h1]

/-- Witness for C4: a zero-amount claim fails with InvalidClaimAmount
and an oversized claim leaves the state unchanged. -/
theorem C4_claim_errors_witness :
    (claim_reward ⟨5, 3⟩ (Origin.Signed 2) 0).result
      = Except.error DispatchError.InvalidClaimAmount ∧
    (claim_reward ⟨5, 3⟩ (Origin.Signed 2) 9).state = ⟨5, 3⟩ ∧
    (claim_reward ⟨5, 3⟩ (Origin.Signed 2) 9).transfers = [] :=
  ⟨(C4_claim_errors ⟨5, 3⟩ 2 0).1.mpr rfl,
   (C4_claim_errors ⟨5, 3⟩ 2 9).2.2 DispatchError.InsufficientRewardPool
     ((C4_claim_errors ⟨5, 3⟩ 2 9).2.1.mpr (by decide))⟩

/-- C5 counterexample: a distributing hook invocation does not always
increment total_distributed by the per-block amount. At the
representable state with pool 50 and total_distributed 2^128 - 1, a
per-block reward of 10 is distributed (the author is credited) but the
raw addition wraps: the stored counter becomes 9, not 2^128 - 1 + 10. -/
theorem C5_block_reward_counterexample :
    (on_initialize_hook 10 (some 3) ⟨50, 2 ^ 128 - 1⟩).transfers
      = [(3, 10)] ∧
    (on_initialize_hook 10 (some 3) ⟨50, 2 ^ 128 - 1⟩).state.totalDistributed
      ≠ 2 ^ 128 - 1 + 10 := by
  refine ⟨rfl, ?_⟩
  decide

/-- C5 amended: when the per-block reward is positive, the pool suffices
and a block author is supplied, the hook decrements reward_pool by the
per-block amount, sets total_distributed to the wrapped u128 sum of the
old counter and that amount (exactly old + amount whenever the sum is
representable), credits the author and emits BlockRewardDistributed. -/
theorem C5_block_reward_amended (s : LedgerState) (rpb : Nat)
    (author : AccountId) (hpos : 0 < rpb) (hle : rpb ≤ s.rewardPool) :
    (on_initialize_hook rpb (some author) s).state.rewardPool
      = s.rewardPool - rpb ∧
    (on_initialize_hook rpb (some author) s).state.totalDistributed
      = (s.totalDistributed + rpb) % U128_MOD ∧
    (on_initialize_hook rpb (some author) s).transfers = [(author, rpb)] ∧
    (on_initialize_hook rpb (some author) s).events
      = [Event.BlockRewardDistributed author rpb] := by
  have h0 : ¬ rpb = 0 := by omega
  have h1 : ¬ s.rewardPool < rpb := by omega
  simp [on_initialize_hook, wrapping_add, h0, h1]

/-- Witness for C5 amended: per-block reward 10 with pool 50 yields pool
40, total_distributed 10 and credits the author with 10. -/
theorem C5_block_reward_amended_witness :
    (on_initialize_hook 10 (some 3) ⟨50, 0⟩).state.rewardPool = 40 ∧
    (on_initialize_hook 10 (some 3) ⟨50, 0⟩).state.totalDistributed
      = (0 + 10) % U128_MOD ∧
    (on_initialize_hook 10 (some 3) ⟨50, 0⟩).transfers = [(3, 10)] ∧
    (on_initialize_hook 10 (some 3) ⟨50, 0⟩).events
      = [Event.BlockRewardDistributed 3 10] :=
  C5_block_reward_amended ⟨50, 0⟩ 10 3 (by decide) (by decide)

/-- C6: when the per-block reward is zero, or the pool is short, or no
block author is supplied, the hook is a no-op on the ledger: state
unchanged, no credit transfer, no event (and its return type carries no
error channel, so no error reaches the host). -/
theorem C6_block_reward_skip (s : LedgerState) (rpb : Nat)
    (author : Option AccountId)
    (h : rpb = 0 ∨ s.rewardPool < rpb ∨ author = none) :
    (on_initialize_hook rpb author s).state = s ∧
    (on_initialize_hook rpb author s).transfers = [] ∧
    (on_initialize_hook rpb author s).events = [] := by
  rcases h with h | h | h
  · simp [on_initialize_hook, h]
  · by_cases h0 : rpb = 0
    · simp [on_initialize_hook, h0]
    · simp [on_initialize_hook, h0, h]
  · subst h
    by_cases h0 : rpb = 0
    · simp [on_initialize_hook, h0]
    · by_cases h1 : s.rewardPool < rpb
      · simp [on_initialize_hook, h0, h1]
      · simp [on_initialize_hook, h0, h1]

/-- Witness for C6: per-block reward 10 with pool 5 skips and leaves the
state unchanged. -/
theorem C6_block_reward_skip_witness :
    (on_initialize_hook 10 (some 1) ⟨5, 0⟩).state = ⟨5, 0⟩ ∧
    (on_initialize_hook 10 (some 1) ⟨5, 0⟩).transfers = [] ∧
    (on_initialize_hook 10 (some 1) ⟨5, 0⟩).events = [] :=
  C6_block_reward_skip ⟨5, 0⟩ 10 (some 1) (Or.inr (Or.inl (by decide)))

/-- C7: an authorized top-up whose sum does not overflow succeeds, sets
reward_pool to the sum (a zero amount included) and emits
RewardPoolIncreased with the amount and the new pool. -/
theorem C7_top_up_success (s : LedgerState) (amount : Nat)
    (h : s.rewardPool + amount ≤ BALANCE_MAX) :
    (top_up_pool true s amount).result = Except.ok () ∧
    (top_up_pool true s amount).state.rewardPool = s.rewardPool + amount ∧
    (top_up_pool true s amount).state.totalDistributed
      = s.totalDistributed ∧
    (top_up_pool true s amount).events
      = [Event.RewardPoolIncreased amount (s.rewardPool + amount)] := by
  simp [top_up_pool, checked_add, h]

/-- Witness for C7: a privileged top-up of 25 from pool 60 yields
reward_pool 85. -/
theorem C7_top_up_success_witness :
    (top_up_pool true ⟨60, 0⟩ 25).result = Except.ok () ∧
    (top_up_pool true ⟨60, 0⟩ 25).state.rewardPool = 85 ∧
    (top_up_pool true ⟨60, 0⟩ 25).state.totalDistributed = 0 ∧
    (top_up_pool true ⟨60, 0⟩ 25).events
      = [Event.RewardPoolIncreased 25 85] :=
  C7_top_up_success ⟨60, 0⟩ 25 (by decide)

/-- C8: top-up fails with BadOriginForTopUp exactly when the origin is
not authorized; for an authorized origin it fails with
ArithmeticOverflow exactly when the sum leaves the representable range;
every failure leaves the ledger unchanged and emits nothing. -/
theorem C8_top_up_errors (authorized : Bool) (s : LedgerState) (amount : Nat) :
    ((top_up_pool authorized s amount).result
        = Except.error DispatchError.BadOriginForTopUp ↔ authorized = false) ∧
    (authorized = true →
      ((top_up_pool authorized s amount).result
          = Except.error DispatchError.ArithmeticOverflow ↔
        BALANCE_MAX < s.rewardPool + amount)) ∧
    (∀ e, (top_up_pool authorized s amount).result = Except.error e →
      (top_up_pool authorized s amount).state = s ∧
      (top_up_pool authorized s amount).events = []) := by
  cases authorized
  · simp [top_up_pool]
  · by_cases h : s.rewardPool + amount ≤ BALANCE_MAX
    · simp [top_up_pool, checked_add, h]
    · simp [top_up_pool, checked_add, h]
      omega

/-- Witness for C8: an unauthorized top-up fails with BadOriginForTopUp
and leaves the state unchanged; an authorized top-up of 2 to the power
128 overflows. -/
theorem C8_top_up_errors_witness :
    (top_up_pool false ⟨7, 1⟩ 5).result
      = Except.error DispatchError.BadOriginForTopUp ∧
    (top_up_pool false ⟨7, 1⟩ 5).state = ⟨7, 1⟩ ∧
    ((top_up_pool true ⟨7, 1⟩ (2 ^ 128)).result
        = Except.error DispatchError.ArithmeticOverflow ↔
      BALANCE_MAX < (LedgerState.mk 7 1).rewardPool + 2 ^ 128) :=
  ⟨(C8_top_up_errors false ⟨7, 1⟩ 5).1.mpr rfl,
   ((C8_top_up_errors false ⟨7, 1⟩ 5).2.2 DispatchError.BadOriginForTopUp
     ((C8_top_up_errors false ⟨7, 1⟩ 5).1.mpr rfl)).1,
   (C8_top_up_errors true ⟨7, 1⟩ (2 ^ 128)).2.1 rfl⟩

/-- C9 counterexample: the hook does not report one fixed weight on
every invocation; the zero-configured skip reports 0 while a successful
distribution reports 10000. -/
theorem C9_weight_counterexample :
    (on_initialize_hook 0 none ⟨0, 0⟩).weight
      ≠ (on_initialize_hook 10 (some 0) ⟨50, 0⟩).weight := by
  decide

/-- C9 amended: the hook reports weight 0 when it skips because the
configured per-block reward is zero or the pool is short, and reports
the constant 10000 in the remaining branches (missing author or
successful distribution); the weight is a pre-declared constant per
branch, never measured per-execution. -/
theorem C9_weight_amended (rpb : Nat) (author : Option AccountId)
    (s : LedgerState) :
    (on_initialize_hook rpb author s).weight
      = if rpb = 0 ∨ s.rewardPool < rpb then 0 else 10000 := by
  by_cases h0 : rpb = 0
  · simp [on_initialize_hook, h0]
  · by_cases h1 : s.rewardPool < rpb
    · simp [on_initialize_hook, h0, h1]
    · cases author <;> simp [on_initialize_hook, h0, h1]

/-- C10: top-up never changes total_distributed, whether it succeeds,
is rejected for a bad origin, or overflows. -/
theorem C10_top_up_preserves_total (authorized : Bool) (s : LedgerState)
    (amount : Nat) :
    (top_up_pool authorized s amount).state.totalDistributed
      = s.totalDistributed := by
  cases authorized
  · simp [top_up_pool]
  · simp only [top_up_pool]
    by_cases h : s.rewardPool + amount ≤ BALANCE_MAX
    · simp [checked_add, h]
    · simp [checked_add, h]

end RewardPallet
